import Mathlib

/-!
Formal model of the driver-box updater script (src/main.py).

The script performs an in-place upgrade of an installation rooted at the
current working directory. The filesystem state relevant to the script is
the three manifest paths (driver-box.exe, bin, conf), the dedicated backup
root (.backup) and the scratch temporary directory created by
temporary_directory. Each is modelled explicitly below; file moves transfer
entries between these slots exactly as shutil.move does.
-/

/-- A filesystem entry: a file with byte contents, or a directory with
named children. Moves and copies preserve the entry verbatim. -/
inductive Entry where
  | file (data : List Nat)
  | dir (children : List (String × List Nat))
deriving DecidableEq, Repr

/-- The live installation: the three manifest paths driver-box.exe, bin and
conf relative to the installation root. none means the path does not exist. -/
structure Live where
  exe : Option Entry
  bin : Option Entry
  conf : Option Entry
deriving DecidableEq, Repr

/-- Contents of the backup root .backup: the three manifest paths as they
were moved aside by Updater.backup. -/
structure Backup where
  exe : Option Entry
  bin : Option Entry
  conf : Option Entry
deriving DecidableEq, Repr

/-- A freshly created, empty backup root (dir_backup.mkdir with nothing
moved into it yet). -/
def Backup.empty : Backup := ⟨none, none, none⟩

/-- Contents of the scratch temporary directory after extraction: the
manifest paths the archive provided (only driver-box.exe and bin are ever
moved out of it). -/
structure Scratch where
  exe : Option Entry
  bin : Option Entry
deriving DecidableEq, Repr

/-- The whole filesystem state the script touches: the live installation,
the backup root (none when .backup does not exist) and the scratch
temporary directory (none when absent). -/
structure FS where
  live : Live
  backupRoot : Option Backup
  tmp : Option Scratch
deriving DecidableEq, Repr

/-- A parsed semantic version as produced by packaging.version.parse; the
script only ever reads the major component, but the full triple is kept. -/
structure Version where
  major : Nat
  minor : Nat
  patch : Nat
deriving DecidableEq, Repr

/-- The exceptions the script can raise, one constructor per raise site:
DowngradeNotSupported is the ValueError raised by Updater.__init__;
UnsupportedMigration is the NotImplementedError raised by migrate_config;
InvalidArtifact is the ValueError raised on a bad content type;
MissingContentLength is the KeyError from resp.headers when the
Content-Length header is absent; CorruptArchive is zipfile.BadZipFile;
CopySourceMissing, CopySourceNotADir and CopyDestExists are the
FileNotFoundError, NotADirectoryError and FileExistsError that
shutil.copytree can raise in migrate_config. Note the script has no
error for a manifest path missing from the archive during the swap. -/
inductive UpdErr where
  | DowngradeNotSupported
  | UnsupportedMigration
  | InvalidArtifact
  | MissingContentLength
  | CorruptArchive
  | CopySourceMissing
  | CopySourceNotADir
  | CopyDestExists
deriving DecidableEq, Repr

/-- The download response as the script observes it: the declared
content-type header, the Content-Length header, and the result of
extracting the downloaded bytes (none models a malformed zip, for which
zipfile raises BadZipFile). -/
structure Response where
  contentType : Option String
  contentLength : Option Nat
  archive : Option Scratch
deriving DecidableEq, Repr

/-- The release-asset filename: driver-box, a dot, the binary type and the
suffix -wv2.zip when the webview flag is set, or .zip otherwise. -/
def artifactFilename (binary_type : String) (webview : Bool) : String :=
  if webview then "driver-box." ++ binary_type ++ "-wv2.zip"
  else "driver-box." ++ binary_type ++ ".zip"

/-- The content-type acceptance test of replace_executable: the header must
be exactly application/zip or application/octet-stream. A missing header
(None in Python) is rejected like any other value. -/
def acceptedContentType (ct : Option String) : Bool :=
  ct == some "application/zip" || ct == some "application/octet-stream"

/-- Model of the temporary_directory context manager with delete left at
its default True: a fresh empty scratch directory is created before the
body runs, and the finally clause removes it on both normal and error
exit. -/
def temporary_directory (body : FS → FS × Except UpdErr Unit) (fs : FS) :
    FS × Except UpdErr Unit :=
  let created : FS := { fs with tmp := some ⟨none, none⟩ }
  let r := body created
  ({ r.1 with tmp := none }, r.2)

namespace Updater

/-- Updater.__init__: the pre-existing backup root is destroyed and a fresh
empty one created FIRST; only then are the versions parsed and the
downgrade check performed, raising ValueError on from.major > to.major. -/
def init (vf vt : Version) (fs : FS) : FS × Except UpdErr Unit :=
  let fs1 : FS := { fs with backupRoot := some Backup.empty }
  if vt.major < vf.major then (fs1, .error .DowngradeNotSupported)
  else (fs1, .ok ())

/-- Updater.backup: recreate the backup root, then move each manifest path
that exists into it. Afterwards the live paths are gone and the backup
holds exactly what the live installation held. -/
def backup (fs : FS) : FS :=
  { live := ⟨none, none, none⟩,
    backupRoot := some ⟨fs.live.exe, fs.live.bin, fs.live.conf⟩,
    tmp := fs.tmp }

/-- Updater.restore: for each manifest path, delete whatever occupies the
live path, then move the backup copy back when one exists (a missing
backup entry is skipped, leaving the live path absent); finally the backup
root is removed with ignore_errors. -/
def restore (fs : FS) : FS :=
  let b := fs.backupRoot.getD Backup.empty
  { live := ⟨b.exe, b.bin, b.conf⟩, backupRoot := none, tmp := fs.tmp }

/-- Updater.cleanup: shutil.rmtree of the backup root with
ignore_errors set, so it is total: a missing backup root is fine and the
live installation is never touched. -/
def cleanup (fs : FS) : FS := { fs with backupRoot := none }

/-- Updater.__exit__: restore when the body raised, cleanup when it
completed; the returned Bool is the value of __exit__, always False, so an
exception in the body is never suppressed. -/
def exitScope (raised : Bool) (fs : FS) : FS × Bool :=
  if raised then (restore fs, false) else (cleanup fs, false)

/-- The per-path swap loop of replace_executable: the live copy is removed
when present (rmtree for a directory, unlink for a file) and then the path
is moved out of the scratch directory when present THERE — a path absent
from the scratch directory is skipped silently. Only driver-box.exe is
processed, plus bin when the webview flag is set. -/
def swapIn (webview : Bool) (sc : Scratch) (l : Live) : Live :=
  if webview then { exe := sc.exe, bin := sc.bin, conf := l.conf }
  else { exe := sc.exe, bin := l.bin, conf := l.conf }

/-- Updater.replace_executable: validate the content type (ValueError on
anything but the two accepted types), then inside a temporary directory
write the download (KeyError when Content-Length is absent), extract the
zip (BadZipFile on a malformed archive) and swap the manifest paths in. -/
def replace_executable (webview : Bool) (resp : Response) (fs : FS) :
    FS × Except UpdErr Unit :=
  if acceptedContentType resp.contentType then
    temporary_directory (fun fs0 =>
      match resp.contentLength with
      | none => (fs0, .error .MissingContentLength)
      | some _ =>
        match resp.archive with
        | none => (fs0, .error .CorruptArchive)
        | some sc =>
          let fs1 : FS := { fs0 with tmp := some sc }
          ({ fs1 with live := swapIn webview sc fs1.live }, .ok ())) fs
  else (fs, .error .InvalidArtifact)

/-- Model of shutil.copytree src dst as used by migrate_config: raises
FileNotFoundError when the source does not exist, NotADirectoryError when
it is a file, FileExistsError when the destination already exists, and
otherwise copies the directory verbatim. -/
def copytree (src dst : Option Entry) : Except UpdErr Entry :=
  match src, dst with
  | none, _ => .error .CopySourceMissing
  | some (.file _), _ => .error .CopySourceNotADir
  | some (.dir _), some _ => .error .CopyDestExists
  | some (.dir c), none => .ok (.dir c)

/-- The copy-config branch of migrate_config: copytree from conf inside
the backup root to the live conf path. -/
def copyConfigStep (fs : FS) : FS × Except UpdErr Unit :=
  match copytree ((fs.backupRoot.getD Backup.empty).conf) fs.live.conf with
  | .ok e => ({ fs with live := { fs.live with conf := some e } }, .ok ())
  | .error err => (fs, .error err)

/-- Updater.migrate_config: equal majors return immediately; the denylist
pair from.major = 1 with to.major = 2 or to.major at least 5 raises
NotImplementedError; every other pair copies conf from the backup. -/
def migrate_config (vf vt : Version) (fs : FS) : FS × Except UpdErr Unit :=
  if vf.major = vt.major then (fs, .ok ())
  else if vf.major = 1 ∧ (vt.major = 2 ∨ 5 ≤ vt.major) then
    (fs, .error .UnsupportedMigration)
  else copyConfigStep fs

/-- Updater.update: print the summary (no filesystem effect), then
replace_executable, then migrate_config. -/
def update (vf vt : Version) (webview : Bool) (resp : Response) (fs : FS) :
    FS × Except UpdErr Unit :=
  match replace_executable webview resp fs with
  | (fs1, .ok _) => migrate_config vf vt fs1
  | (fs1, .error e) => (fs1, .error e)

end Updater

/-- The whole transaction as run by __main__: construct the Updater (which
can itself mutate the backup root and raise), and on success run the with
statement — __enter__ takes the backup, the body is update, and __exit__
restores on an exception (returning False so the original exception
propagates) or cleans up on success. -/
def runTransaction (vf vt : Version) (webview : Bool) (resp : Response)
    (fs : FS) : FS × Except UpdErr Unit :=
  match Updater.init vf vt fs with
  | (fs1, .error e) => (fs1, .error e)
  | (fs1, .ok _) =>
    let fs2 := Updater.backup fs1
    match Updater.update vf vt webview resp fs2 with
    | (fs3, .error e) =>
      let (fs4, suppress) := Updater.exitScope true fs3
      (fs4, if suppress then .ok () else .error e)
    | (fs3, .ok _) =>
      let (fs4, suppress) := Updater.exitScope false fs3
      (fs4, if suppress then .ok () else .ok ())

/-- Sample file entry used by concrete witnesses. -/
def eExe : Entry := .file [77, 90, 1]

/-- Sample runtime directory entry used by concrete witnesses. -/
def eBin : Entry := .dir [("webview2.dll", [4, 5])]

/-- Sample configuration directory entry used by concrete witnesses. -/
def eConf : Entry := .dir [("settings.json", [123, 125])]

/-- A fully populated live installation. -/
def liveFull : Live := ⟨some eExe, some eBin, some eConf⟩

/-- A filesystem with a full live installation, no backup root and no
scratch directory. -/
def fsFull : FS := ⟨liveFull, none, none⟩

/-- A filesystem that still carries a stale backup root from a crashed
earlier run. -/
def fsStale : FS := ⟨liveFull, some ⟨some eExe, none, none⟩, none⟩

/-- A scratch directory holding a new executable and runtime directory. -/
def scFull : Scratch := ⟨some (.file [77, 90, 2]), some (.dir [("webview2.dll", [9])])⟩

/-- A well-formed zip download response carrying the given archive. -/
def respZip (sc : Option Scratch) : Response := ⟨some "application/zip", some 1024, sc⟩

/-- An error-page response, content type text/html. -/
def respHtml : Response := ⟨some "text/html", some 512, some scFull⟩

/-- A response identical to respZip but with the executable absent from the
extracted archive. -/
def respNoExe : Response := ⟨some "application/zip", some 100, some ⟨none, none⟩⟩

/-- A filesystem whose live installation has no conf directory. -/
def fsNoConf : FS := ⟨⟨some eExe, some eBin, none⟩, none, none⟩

/-- The filesystem state reached by the body (update) just before __exit__
runs in the 1.9.0 to 2.0.0 scenario started from fsFull. -/
def fsAfterBody : FS :=
  ⟨⟨some (.file [77, 90, 2]), none, none⟩, some ⟨some eExe, some eBin, some eConf⟩, none⟩

/-- The boolean content-type gate unfolded to a disjunction of equalities. -/
theorem acceptedContentType_iff (ct : Option String) :
    acceptedContentType ct = true
      ↔ (ct = some "application/zip" ∨ ct = some "application/octet-stream") := by
  simp [acceptedContentType]

/-- When the constructor check passes, the transaction is the with block:
backup, then update, then restore on an error (propagating it) or cleanup
on success. -/
theorem runTransaction_no_downgrade (vf vt : Version) (w : Bool) (resp : Response)
    (fs : FS) (h : ¬ vt.major < vf.major) :
    runTransaction vf vt w resp fs =
      match Updater.update vf vt w resp
          (Updater.backup { fs with backupRoot := some Backup.empty }) with
      | (fs3, .error e) => (Updater.restore fs3, .error e)
      | (fs3, .ok _) => (Updater.cleanup fs3, .ok ()) := by
  unfold runTransaction Updater.init Updater.exitScope
  rw [if_neg h]
  dsimp only
  cases hu : Updater.update vf vt w resp
      (Updater.backup { fs with backupRoot := some Backup.empty }) with
  | mk fs3 r => cases r <;> rfl

/-- With an accepted content type, a present Content-Length and a
well-formed archive, replace_executable swaps the manifest paths in and
removes the scratch directory. -/
theorem replace_executable_good (w : Bool) (resp : Response) (n : Nat) (sc : Scratch)
    (fs : FS) (hct : acceptedContentType resp.contentType = true)
    (hlen : resp.contentLength = some n) (harch : resp.archive = some sc) :
    Updater.replace_executable w resp fs =
      ({ live := Updater.swapIn w sc fs.live, backupRoot := fs.backupRoot, tmp := none },
       .ok ()) := by
  unfold Updater.replace_executable temporary_directory
  rw [if_pos hct, hlen, harch]

/-- Equal majors make migrate_config a no-op. -/
theorem migrate_config_noop (vf vt : Version) (fs : FS) (h : vf.major = vt.major) :
    Updater.migrate_config vf vt fs = (fs, .ok ()) := by
  unfold Updater.migrate_config
  rw [if_pos h]

/-- Denylisted pairs make migrate_config raise NotImplementedError. -/
theorem migrate_config_unsupported (vf vt : Version) (fs : FS)
    (h1 : vf.major = 1) (h2 : vt.major = 2 ∨ 5 ≤ vt.major) :
    Updater.migrate_config vf vt fs = (fs, .error .UnsupportedMigration) := by
  have hne : ¬ vf.major = vt.major := by omega
  unfold Updater.migrate_config
  rw [if_neg hne, if_pos ⟨h1, h2⟩]

/-- Every other cross-major pair reaches the copytree branch. -/
theorem migrate_config_copy (vf vt : Version) (fs : FS)
    (hne : vf.major ≠ vt.major)
    (hden : ¬(vf.major = 1 ∧ (vt.major = 2 ∨ 5 ≤ vt.major))) :
    Updater.migrate_config vf vt fs = Updater.copyConfigStep fs := by
  unfold Updater.migrate_config
  rw [if_neg hne, if_neg hden]

/-- C1 counterexample: starting from a filesystem that carries a stale
backup root, a downgrade attempt (2.0.0 to 1.0.0) does fail with
DowngradeNotSupported, but the final backup root is a freshly created empty
one rather than the untouched pre-existing one, refuting the no-mutation
part of the claim. -/
theorem c1_counterexample :
    (runTransaction ⟨2, 0, 0⟩ ⟨1, 0, 0⟩ false (respZip (some scFull)) fsStale).2
        = .error .DowngradeNotSupported
    ∧ (runTransaction ⟨2, 0, 0⟩ ⟨1, 0, 0⟩ false (respZip (some scFull)) fsStale).1.backupRoot
        = some Backup.empty
    ∧ some Backup.empty ≠ fsStale.backupRoot :=
  ⟨rfl, rfl, by decide⟩

/-- C1 (amended): for every downgrade pair the transaction fails with
DowngradeNotSupported and the live installation and scratch slots are
untouched, but the constructor has already destroyed any pre-existing
backup root and created a fresh empty one, which is left behind. -/
theorem c1_downgrade_mutates_backup_root (vf vt : Version) (w : Bool)
    (resp : Response) (fs : FS) (h : vt.major < vf.major) :
    runTransaction vf vt w resp fs
      = ({ fs with backupRoot := some Backup.empty }, .error .DowngradeNotSupported) := by
  unfold runTransaction Updater.init
  rw [if_pos h]

/-- C1 witness: the amended theorem applied to the concrete pair 2.0.0 to
1.0.0 on a full installation. -/
theorem c1_witness :
    runTransaction ⟨2, 0, 0⟩ ⟨1, 0, 0⟩ false (respZip (some scFull)) fsFull
      = ({ fsFull with backupRoot := some Backup.empty }, .error .DowngradeNotSupported) :=
  c1_downgrade_mutates_backup_root ⟨2, 0, 0⟩ ⟨1, 0, 0⟩ false (respZip (some scFull)) fsFull
    (by decide)

/-- C2 counterexample: for the unsupported pair 1.9.0 to 2.0.0 with an
error-page download response, the transaction fails with InvalidArtifact —
an error of the download step — showing the download step runs before the
migration-plan check, so the transaction does not fail with
UnsupportedMigration before download begins as claimed. -/
theorem c2_counterexample :
    (runTransaction ⟨1, 9, 0⟩ ⟨2, 0, 0⟩ false respHtml fsFull).2 = .error .InvalidArtifact
    ∧ UpdErr.InvalidArtifact ≠ UpdErr.UnsupportedMigration :=
  ⟨rfl, by decide⟩

/-- C2 (amended): on an unsupported migration pair the download and swap
steps run first; when they succeed, migrate_config fails with
UnsupportedMigration and the rollback restores the live installation and
removes the backup root, so afterwards the live installation is unchanged
and no backup root is left behind. -/
theorem c2_unsupported_fails_after_download (vf vt : Version) (w : Bool)
    (resp : Response) (n : Nat) (sc : Scratch) (fs : FS)
    (h1 : vf.major = 1) (h2 : vt.major = 2 ∨ 5 ≤ vt.major)
    (hct : acceptedContentType resp.contentType = true)
    (hlen : resp.contentLength = some n)
    (harch : resp.archive = some sc) :
    runTransaction vf vt w resp fs
      = (⟨fs.live, none, none⟩, .error .UnsupportedMigration) := by
  have hnd : ¬ vt.major < vf.major := by omega
  have hupd : Updater.update vf vt w resp
      (Updater.backup { fs with backupRoot := some Backup.empty })
      = ({ live := Updater.swapIn w sc ⟨none, none, none⟩,
           backupRoot := some ⟨fs.live.exe, fs.live.bin, fs.live.conf⟩, tmp := none },
         .error .UnsupportedMigration) := by
    unfold Updater.update
    rw [replace_executable_good w resp n sc _ hct hlen harch]
    exact migrate_config_unsupported vf vt _ h1 h2
  rw [runTransaction_no_downgrade vf vt w resp fs hnd, hupd]
  rfl

/-- C2 witness: the amended theorem applied to 1.9.0 to 2.0.0 with a good
zip response on a full installation. -/
theorem c2_witness :
    runTransaction ⟨1, 9, 0⟩ ⟨2, 0, 0⟩ true (respZip (some scFull)) fsFull
      = (⟨fsFull.live, none, none⟩, .error .UnsupportedMigration) :=
  c2_unsupported_fails_after_download ⟨1, 9, 0⟩ ⟨2, 0, 0⟩ true (respZip (some scFull))
    1024 scFull fsFull rfl (Or.inl rfl) (by decide) rfl rfl

/-- C3: the migration plan table of migrate_config — equal majors are a
no-op; the pair is denylisted exactly when from-major is 1 and to-major is
2 or at least 5, raising UnsupportedMigration; every other cross-major
pair, in particular 1 to 3 and 1 to 4, takes the copy-config branch. -/
theorem c3_migration_plan_table (vf vt : Version) (fs : FS) :
    (vf.major = vt.major → Updater.migrate_config vf vt fs = (fs, .ok ()))
    ∧ (vf.major = 1 → (vt.major = 2 ∨ 5 ≤ vt.major) →
        Updater.migrate_config vf vt fs = (fs, .error .UnsupportedMigration))
    ∧ (vf.major ≠ vt.major → ¬(vf.major = 1 ∧ (vt.major = 2 ∨ 5 ≤ vt.major)) →
        Updater.migrate_config vf vt fs = Updater.copyConfigStep fs)
    ∧ (vf.major = 1 → (vt.major = 3 ∨ vt.major = 4) →
        Updater.migrate_config vf vt fs = Updater.copyConfigStep fs) := by
  refine ⟨fun h => migrate_config_noop vf vt fs h,
          fun h1 h2 => migrate_config_unsupported vf vt fs h1 h2,
          fun hne hden => migrate_config_copy vf vt fs hne hden,
          fun h1 h34 => migrate_config_copy vf vt fs (by omega) (by omega)⟩

/-- C3 witness: the table instantiated at 1 to 2 (unsupported) and 1 to 3
(copy-config). -/
theorem c3_witness :
    Updater.migrate_config ⟨1, 0, 0⟩ ⟨2, 0, 0⟩ fsFull
      = (fsFull, .error .UnsupportedMigration)
    ∧ Updater.migrate_config ⟨1, 0, 0⟩ ⟨3, 0, 0⟩ fsFull = Updater.copyConfigStep fsFull :=
  ⟨(c3_migration_plan_table ⟨1, 0, 0⟩ ⟨2, 0, 0⟩ fsFull).2.1 rfl (Or.inl rfl),
   (c3_migration_plan_table ⟨1, 0, 0⟩ ⟨3, 0, 0⟩ fsFull).2.2.2 rfl (Or.inl rfl)⟩

/-- C4: round-trip — backup followed immediately by restore reproduces the
live installation exactly (same paths present, same kinds, same contents,
for every combination of present paths and entry values) and leaves no
backup root behind. -/
theorem c4_snapshot_restore_roundtrip (fs : FS) :
    (Updater.restore (Updater.backup fs)).live = fs.live
    ∧ (Updater.restore (Updater.backup fs)).backupRoot = none :=
  ⟨rfl, rfl⟩

/-- C5: replace_executable fails with InvalidArtifact exactly when the
declared content type of the response is neither application/zip nor
application/octet-stream; with an accepted content type it proceeds past
the check and never raises InvalidArtifact. -/
theorem c5_content_type_gate (w : Bool) (resp : Response) (fs : FS) :
    (Updater.replace_executable w resp fs).2 = .error .InvalidArtifact
      ↔ ¬(resp.contentType = some "application/zip"
          ∨ resp.contentType = some "application/octet-stream") := by
  by_cases hct : acceptedContentType resp.contentType
  · have hacc := (acceptedContentType_iff resp.contentType).mp hct
    refine iff_of_false ?_ (fun h => h hacc)
    cases hlen : resp.contentLength with
    | none =>
      simp [Updater.replace_executable, temporary_directory, hct, hlen]
    | some n =>
      cases harch : resp.archive with
      | none =>
        simp [Updater.replace_executable, temporary_directory, hct, hlen, harch]
      | some sc =>
        simp [Updater.replace_executable, temporary_directory, hct, hlen, harch]
  · have hacc : ¬(resp.contentType = some "application/zip"
        ∨ resp.contentType = some "application/octet-stream") :=
      fun h => hct ((acceptedContentType_iff resp.contentType).mpr h)
    refine iff_of_true ?_ hacc
    simp [Updater.replace_executable, hct]

/-- C5 witness: the gate applied to a text/html error page, yielding
InvalidArtifact. -/
theorem c5_witness :
    (Updater.replace_executable false respHtml fsFull).2 = .error .InvalidArtifact :=
  (c5_content_type_gate false respHtml fsFull).mpr (by decide)

/-- C6 counterexample: with the executable absent from the extracted
archive, the swap step removes the live executable and completes with ok
instead of failing — there is no InstallFailed error in the script at
all — refuting the claim that a missing required target fails the
operation. -/
theorem c6_counterexample :
    (Updater.replace_executable false respNoExe fsFull).2 = .ok ()
    ∧ (Updater.replace_executable false respNoExe fsFull).1.live.exe = none
    ∧ fsFull.live.exe ≠ none :=
  ⟨rfl, rfl, by decide⟩

/-- C6 (amended): when a required target path is absent from the scratch
directory the live copy is still removed and the swap completes without
any error, leaving the target path absent from the live installation; no
InstallFailed style error is raised. -/
theorem c6_missing_target_skipped (w : Bool) (resp : Response) (n : Nat)
    (sc : Scratch) (fs : FS)
    (hct : acceptedContentType resp.contentType = true)
    (hlen : resp.contentLength = some n)
    (harch : resp.archive = some sc)
    (hexe : sc.exe = none) :
    (Updater.replace_executable w resp fs).2 = .ok ()
    ∧ (Updater.replace_executable w resp fs).1.live.exe = none := by
  rw [replace_executable_good w resp n sc fs hct hlen harch]
  refine ⟨rfl, ?_⟩
  cases w <;> simp [Updater.swapIn, hexe]

/-- C6 witness: the amended theorem applied to an archive missing the
executable over a full installation. -/
theorem c6_witness :
    (Updater.replace_executable false respNoExe fsFull).2 = .ok ()
    ∧ (Updater.replace_executable false respNoExe fsFull).1.live.exe = none :=
  c6_missing_target_skipped false respNoExe 100 ⟨none, none⟩ fsFull (by decide) rfl rfl rfl

/-- C7: scope exit runs exactly one of restore (body raised) or cleanup
(body completed) and never suppresses the exception (__exit__ returns
False); consequently in the full transaction the original body error is
exactly the one reported to the caller after the rollback, and a
successful body leads to cleanup with a successful result. -/
theorem c7_exit_exactly_once :
    (∀ g : FS, Updater.exitScope true g = (Updater.restore g, false))
    ∧ (∀ g : FS, Updater.exitScope false g = (Updater.cleanup g, false))
    ∧ (∀ (vf vt : Version) (w : Bool) (resp : Response) (fs fs3 : FS) (e : UpdErr),
        ¬ vt.major < vf.major →
        Updater.update vf vt w resp
            (Updater.backup { fs with backupRoot := some Backup.empty }) = (fs3, .error e) →
        runTransaction vf vt w resp fs = (Updater.restore fs3, .error e))
    ∧ (∀ (vf vt : Version) (w : Bool) (resp : Response) (fs fs3 : FS),
        ¬ vt.major < vf.major →
        Updater.update vf vt w resp
            (Updater.backup { fs with backupRoot := some Backup.empty }) = (fs3, .ok ()) →
        runTransaction vf vt w resp fs = (Updater.cleanup fs3, .ok ())) := by
  refine ⟨fun g => rfl, fun g => rfl, ?_, ?_⟩
  · intro vf vt w resp fs fs3 e hnd hupd
    rw [runTransaction_no_downgrade vf vt w resp fs hnd, hupd]
  · intro vf vt w resp fs fs3 hnd hupd
    rw [runTransaction_no_downgrade vf vt w resp fs hnd, hupd]

/-- C7 witness: in the 1.9.0 to 2.0.0 scenario the body fails with
UnsupportedMigration and the transaction result is exactly restore of the
body-final state paired with that same original error. -/
theorem c7_witness :
    runTransaction ⟨1, 9, 0⟩ ⟨2, 0, 0⟩ false (respZip (some scFull)) fsFull
      = (Updater.restore fsAfterBody, .error .UnsupportedMigration) :=
  c7_exit_exactly_once.2.2.1 ⟨1, 9, 0⟩ ⟨2, 0, 0⟩ false (respZip (some scFull)) fsFull
    fsAfterBody .UnsupportedMigration (by decide) rfl

/-- C8: the discard operation is total by construction (rmtree with
ignore_errors), idempotent, a no-op when no backup root exists, and it
never touches the live installation paths or the scratch slot. -/
theorem c8_cleanup_idempotent_total (fs : FS) :
    Updater.cleanup (Updater.cleanup fs) = Updater.cleanup fs
    ∧ (Updater.cleanup fs).live = fs.live
    ∧ (Updater.cleanup fs).tmp = fs.tmp
    ∧ Updater.cleanup { fs with backupRoot := none } = { fs with backupRoot := none } :=
  ⟨rfl, rfl, rfl, rfl⟩

/-- C9: a cross-major transaction whose plan is copy-config but whose
original installation had no conf directory fails in the migration step
with the copytree source missing, and that error rolls the whole
transaction back: the live installation is restored and the backup root
removed. -/
theorem c9_missing_conf_fails_and_rolls_back (vf vt : Version) (w : Bool)
    (resp : Response) (n : Nat) (sc : Scratch) (fs : FS)
    (hlt : vf.major < vt.major)
    (hden : ¬(vf.major = 1 ∧ (vt.major = 2 ∨ 5 ≤ vt.major)))
    (hct : acceptedContentType resp.contentType = true)
    (hlen : resp.contentLength = some n)
    (harch : resp.archive = some sc)
    (hconf : fs.live.conf = none) :
    runTransaction vf vt w resp fs
      = (⟨fs.live, none, none⟩, .error .CopySourceMissing) := by
  have hnd : ¬ vt.major < vf.major := by omega
  have hne : vf.major ≠ vt.major := by omega
  have hupd : Updater.update vf vt w resp
      (Updater.backup { fs with backupRoot := some Backup.empty })
      = ({ live := Updater.swapIn w sc ⟨none, none, none⟩,
           backupRoot := some ⟨fs.live.exe, fs.live.bin, fs.live.conf⟩, tmp := none },
         .error .CopySourceMissing) := by
    unfold Updater.update
    rw [replace_executable_good w resp n sc _ hct hlen harch]
    show Updater.migrate_config vf vt
        ({ live := Updater.swapIn w sc ⟨none, none, none⟩,
           backupRoot := some ⟨fs.live.exe, fs.live.bin, fs.live.conf⟩, tmp := none }) = _
    rw [migrate_config_copy vf vt _ hne hden]
    simp [Updater.copyConfigStep, Updater.copytree, hconf]
  rw [runTransaction_no_downgrade vf vt w resp fs hnd, hupd]
  rfl

/-- C9 witness: updating 2.0.0 to 3.1.0 on an installation without a conf
directory fails with the missing copy source and ends rolled back. -/
theorem c9_witness :
    runTransaction ⟨2, 0, 0⟩ ⟨3, 1, 0⟩ false (respZip (some scFull)) fsNoConf
      = (⟨fsNoConf.live, none, none⟩, .error .CopySourceMissing) :=
  c9_missing_conf_fails_and_rolls_back ⟨2, 0, 0⟩ ⟨3, 1, 0⟩ false (respZip (some scFull))
    1024 scFull fsNoConf (by decide) (by decide) (by decide) rfl rfl rfl

/-- C10: the scratch temporary directory is removed on every exit path —
the finally clause of temporary_directory always clears it regardless of
how the body ended, and replace_executable never leaves a scratch
directory behind in the installation root. -/
theorem c10_scratch_always_removed :
    (∀ (body : FS → FS × Except UpdErr Unit) (fs : FS),
        ((temporary_directory body fs).1).tmp = none)
    ∧ (∀ (w : Bool) (resp : Response) (fs : FS), fs.tmp = none →
        ((Updater.replace_executable w resp fs).1).tmp = none) := by
  refine ⟨fun body fs => rfl, ?_⟩
  intro w resp fs htmp
  unfold Updater.replace_executable
  by_cases hct : acceptedContentType resp.contentType
  · rw [if_pos hct]
    rfl
  · rw [if_neg hct]
    exact htmp

/-- C10 witness: the invalid-artifact path of replace_executable, started
with no scratch directory present, ends with no scratch directory. -/
theorem c10_witness :
    ((Updater.replace_executable false respHtml fsFull).1).tmp = none :=
  c10_scratch_always_removed.2 false respHtml fsFull rfl
